import Mathlib

/-!
Verification of the photo-frame compositor (`renderCompositeToCanvas`) and the
export wrapper (`mergeImages`) from `src/utils/imageMerger` (the feature-complete
variant: profile scale + rotation + offsets, frame scale).

Modelling choices:
* JS numbers are modelled by exact rationals `ℚ` (the geometry is pure field
  arithmetic; no floating-point rounding is modelled).
* An `HTMLImageElement` is a record of its `naturalWidth`/`naturalHeight` and
  `width`/`height` properties (natural numbers; `0` models both the number 0 and
  `undefined`, matching the JS falsy test `!w`), plus an idealized pixel
  sampling function.
* The canvas 2D context is given a small-step trace semantics: the render
  function emits the list of mutations it performs (`canvas.width/height`
  assignment, `clearRect`, `save`/`restore`, `translate`, `rotate`,
  `drawImage`), and `applyOps` executes them on a canvas state.  Assigning
  `canvas.width`/`height` resets the pixel buffer, the current transform and
  the save stack, as the HTML canvas does.
* Rotation angles are represented as rational multiples of π: the code computes
  `rotationRadians = (profileRotation * Math.PI) / 180`, which we carry as the
  coefficient `profileRotation / 180` (so the op `Op.rotate k` means "rotate by
  k·π radians").  Executing a rotation consults an oracle `trig : ℚ → ℚ × ℚ`
  returning `(cos (k·π), sin (k·π))`; theorems quantify over the oracle and
  state any trigonometric facts they need as hypotheses.
* Pixels are premultiplied-alpha RGBA rationals; `drawImage` composites with
  the canvas default `source-over` operator; sampling is ideal point sampling
  through the inverse of the current transform (`clearRect` is used by the code
  only under the identity transform, and is modelled in canvas coordinates).
-/

/-- A premultiplied-alpha RGBA pixel with rational components. -/
structure Pixel where
  r : ℚ
  g : ℚ
  b : ℚ
  a : ℚ
deriving DecidableEq, Repr

/-- The fully transparent pixel (premultiplied, so all components are 0). -/
def Pixel.transparent : Pixel := ⟨0, 0, 0, 0⟩

/-- Porter-Duff source-over compositing on premultiplied pixels. -/
def sourceOver (s d : Pixel) : Pixel :=
  ⟨s.r + d.r * (1 - s.a), s.g + d.g * (1 - s.a),
   s.b + d.b * (1 - s.a), s.a + d.a * (1 - s.a)⟩

/-- An `HTMLImageElement`: reported dimensions plus an idealized pixel
sampling function over its intrinsic coordinate space. -/
structure ImageEl where
  naturalWidth : ℕ
  naturalHeight : ℕ
  width : ℕ
  height : ℕ
  pix : ℚ → ℚ → Pixel

/-- Effective width, mirroring the JS fallback `img.naturalWidth || img.width`. -/
def effWidth (img : ImageEl) : ℕ :=
  if img.naturalWidth ≠ 0 then img.naturalWidth else img.width

/-- Effective height, mirroring the JS fallback `img.naturalHeight || img.height`. -/
def effHeight (img : ImageEl) : ℕ :=
  if img.naturalHeight ≠ 0 then img.naturalHeight else img.height

/-- The `CompositeOptions` parameter object, with the source's default values. -/
structure CompositeOptions where
  profileScale : ℚ := 1
  frameScale : ℚ := 1
  profileRotation : ℚ := 0
  profileOffsetX : ℚ := 0
  profileOffsetY : ℚ := 0
deriving DecidableEq, Repr

/-- The default (all-defaults) options record. -/
def defaultOptions : CompositeOptions := {}

/-- `canvas.width` after the resize: the frame's effective width. -/
def canvasWidth (frame : ImageEl) : ℚ := (effWidth frame : ℚ)

/-- `canvas.height` after the resize: the frame's effective height. -/
def canvasHeight (frame : ImageEl) : ℚ := (effHeight frame : ℚ)

/-- `scaledFrameWidth = frameWidth * frameScale`. -/
def scaledFrameWidth (frame : ImageEl) (o : CompositeOptions) : ℚ :=
  canvasWidth frame * o.frameScale

/-- `scaledFrameHeight = frameHeight * frameScale`. -/
def scaledFrameHeight (frame : ImageEl) (o : CompositeOptions) : ℚ :=
  canvasHeight frame * o.frameScale

/-- `baseProfileScale = Math.max(canvas.width / profileWidth, canvas.height / profileHeight)`. -/
def baseProfileScale (profile frame : ImageEl) : ℚ :=
  max (canvasWidth frame / (effWidth profile : ℚ))
      (canvasHeight frame / (effHeight profile : ℚ))

/-- `finalProfileWidth = profileWidth * baseProfileScale * profileScale`. -/
def finalProfileWidth (profile frame : ImageEl) (o : CompositeOptions) : ℚ :=
  (effWidth profile : ℚ) * baseProfileScale profile frame * o.profileScale

/-- `finalProfileHeight = profileHeight * baseProfileScale * profileScale`. -/
def finalProfileHeight (profile frame : ImageEl) (o : CompositeOptions) : ℚ :=
  (effHeight profile : ℚ) * baseProfileScale profile frame * o.profileScale

/-- `baseProfileOffsetX = (canvas.width - finalProfileWidth) / 2`. -/
def baseProfileOffsetX (profile frame : ImageEl) (o : CompositeOptions) : ℚ :=
  (canvasWidth frame - finalProfileWidth profile frame o) / 2

/-- `baseProfileOffsetY = (canvas.height - finalProfileHeight) / 2`. -/
def baseProfileOffsetY (profile frame : ImageEl) (o : CompositeOptions) : ℚ :=
  (canvasHeight frame - finalProfileHeight profile frame o) / 2

/-- `profileCenterX = baseProfileOffsetX + finalProfileWidth / 2 + profileOffsetX`. -/
def profileCenterX (profile frame : ImageEl) (o : CompositeOptions) : ℚ :=
  baseProfileOffsetX profile frame o + finalProfileWidth profile frame o / 2 + o.profileOffsetX

/-- `profileCenterY = baseProfileOffsetY + finalProfileHeight / 2 + profileOffsetY`. -/
def profileCenterY (profile frame : ImageEl) (o : CompositeOptions) : ℚ :=
  baseProfileOffsetY profile frame o + finalProfileHeight profile frame o / 2 + o.profileOffsetY

/-- The code's `rotationRadians = (profileRotation * Math.PI) / 180`, carried as
its coefficient of π: `profileRotation / 180` (so the angle is this value times
π radians). -/
def rotationRadiansDivPi (o : CompositeOptions) : ℚ := o.profileRotation / 180

/-- `frameOffsetX = (canvas.width - scaledFrameWidth) / 2`. -/
def frameOffsetX (frame : ImageEl) (o : CompositeOptions) : ℚ :=
  (canvasWidth frame - scaledFrameWidth frame o) / 2

/-- `frameOffsetY = (canvas.height - scaledFrameHeight) / 2`. -/
def frameOffsetY (frame : ImageEl) (o : CompositeOptions) : ℚ :=
  (canvasHeight frame - scaledFrameHeight frame o) / 2

/-- One mutation of the canvas element or its 2D context.  `rotate k` rotates
by `k·π` radians (see `rotationRadiansDivPi`). -/
inductive Op where
  | setSize (w h : ℚ)
  | clearRect (x y w h : ℚ)
  | save
  | translate (tx ty : ℚ)
  | rotate (radiansDivPi : ℚ)
  | drawImage (img : ImageEl) (dx dy dw dh : ℚ)
  | restore

/-- A 2D affine transform in canvas order: `(x, y) ↦ (a x + c y + e, b x + d y + f)`. -/
structure Affine2D where
  a : ℚ
  b : ℚ
  c : ℚ
  d : ℚ
  e : ℚ
  f : ℚ
deriving DecidableEq, Repr

/-- The identity transform. -/
def Affine2D.ident : Affine2D := ⟨1, 0, 0, 1, 0, 0⟩

/-- Apply a transform to a point. -/
def Affine2D.apply (m : Affine2D) (x y : ℚ) : ℚ × ℚ :=
  (m.a * x + m.c * y + m.e, m.b * x + m.d * y + m.f)

/-- Transform composition: `(m.comp n).apply x y = m.apply (n.apply x y)`
(first apply `n`, then `m`), matching how `ctx.translate`/`ctx.rotate` multiply
onto the current transform. -/
def Affine2D.comp (m n : Affine2D) : Affine2D :=
  ⟨m.a * n.a + m.c * n.b, m.b * n.a + m.d * n.b,
   m.a * n.c + m.c * n.d, m.b * n.c + m.d * n.d,
   m.a * n.e + m.c * n.f + m.e, m.b * n.e + m.d * n.f + m.f⟩

/-- Determinant of the linear part. -/
def Affine2D.det (m : Affine2D) : ℚ := m.a * m.d - m.b * m.c

/-- Inverse transform (junk when the determinant is 0; the transforms the
renderer builds are rigid motions with determinant 1). -/
def Affine2D.inv (m : Affine2D) : Affine2D :=
  ⟨m.d / m.det, -m.b / m.det, -m.c / m.det, m.a / m.det,
   (m.c * m.f - m.d * m.e) / m.det, (m.b * m.e - m.a * m.f) / m.det⟩

/-- The matrix of `ctx.translate(tx, ty)`. -/
def Affine2D.translateM (tx ty : ℚ) : Affine2D := ⟨1, 0, 0, 1, tx, ty⟩

/-- The matrix of `ctx.rotate θ` given `c = cos θ` and `s = sin θ`. -/
def Affine2D.rotM (c s : ℚ) : Affine2D := ⟨c, s, -s, c, 0, 0⟩

/-- The state of a canvas element together with its 2D context. -/
structure CanvasState where
  width : ℚ
  height : ℚ
  pix : ℚ → ℚ → Pixel
  ctm : Affine2D
  stack : List Affine2D

/-- The `source-over` source produced at canvas point `(x, y)` by
`ctx.drawImage(img, dx, dy, dw, dh)` under current transform `ctm`: pull the
point back through the transform; if it lands in the destination rectangle,
point-sample the image (its intrinsic size mapped onto the rectangle),
otherwise contribute nothing. -/
def sampleImage (ctm : Affine2D) (img : ImageEl) (dx dy dw dh x y : ℚ) : Pixel :=
  let q := ctm.inv.apply x y
  if dx ≤ q.1 ∧ q.1 < dx + dw ∧ dy ≤ q.2 ∧ q.2 < dy + dh then
    img.pix ((q.1 - dx) / dw * (effWidth img : ℚ)) ((q.2 - dy) / dh * (effHeight img : ℚ))
  else Pixel.transparent

/-- Execute one op.  Assigning the canvas size resets the pixel buffer, the
transform and the save stack (HTML canvas behaviour); `restore` on an empty
stack is a no-op. -/
def applyOp (trig : ℚ → ℚ × ℚ) (st : CanvasState) : Op → CanvasState
  | .setSize w h => ⟨w, h, fun _ _ => Pixel.transparent, Affine2D.ident, []⟩
  | .clearRect cx cy cw ch =>
      { st with pix := fun x y =>
          if cx ≤ x ∧ x < cx + cw ∧ cy ≤ y ∧ y < cy + ch then Pixel.transparent
          else st.pix x y }
  | .save => { st with stack := st.ctm :: st.stack }
  | .translate tx ty => { st with ctm := st.ctm.comp (Affine2D.translateM tx ty) }
  | .rotate k => { st with ctm := st.ctm.comp (Affine2D.rotM (trig k).1 (trig k).2) }
  | .drawImage img dx dy dw dh =>
      { st with pix := fun x y =>
          sourceOver (sampleImage st.ctm img dx dy dw dh x y) (st.pix x y) }
  | .restore =>
      match st.stack with
      | [] => st
      | m :: rest => { st with ctm := m, stack := rest }

/-- Execute a list of ops in order. -/
def applyOps (trig : ℚ → ℚ × ℚ) (st : CanvasState) : List Op → CanvasState
  | [] => st
  | op :: rest => applyOps trig (applyOp trig st op) rest

/-- The mutation trace of a successful `renderCompositeToCanvas` call, in
source order (lines 31–64): resize to the frame size, clear, save, translate
to the profile center, rotate, draw the profile centered on the origin at its
final size, restore, draw the scaled centered frame. -/
def renderOps (profile frame : ImageEl) (o : CompositeOptions) : List Op :=
  [Op.setSize (canvasWidth frame) (canvasHeight frame),
   Op.clearRect 0 0 (canvasWidth frame) (canvasHeight frame),
   Op.save,
   Op.translate (profileCenterX profile frame o) (profileCenterY profile frame o),
   Op.rotate (rotationRadiansDivPi o),
   Op.drawImage profile (-(finalProfileWidth profile frame o) / 2)
     (-(finalProfileHeight profile frame o) / 2)
     (finalProfileWidth profile frame o) (finalProfileHeight profile frame o),
   Op.restore,
   Op.drawImage frame (frameOffsetX frame o) (frameOffsetY frame o)
     (scaledFrameWidth frame o) (scaledFrameHeight frame o)]

/-- `renderCompositeToCanvas`: validate the effective dimensions first; on
failure throw `'Invalid image dimensions'` having performed no mutation, on
success emit the full mutation trace.  Returns the ops performed paired with
the thrown error, if any. -/
def renderCompositeToCanvas (profile frame : ImageEl) (o : CompositeOptions) :
    List Op × Option String :=
  if effWidth frame = 0 ∨ effHeight frame = 0 ∨
     effWidth profile = 0 ∨ effHeight profile = 0 then
    ([], some "Invalid image dimensions")
  else
    (renderOps profile frame o, none)

/-- The current transform in force when the profile is drawn: identity, then
`translate(profileCenterX, profileCenterY)`, then `rotate(rotationRadians)`. -/
def profileCtm (trig : ℚ → ℚ × ℚ) (profile frame : ImageEl) (o : CompositeOptions) : Affine2D :=
  (Affine2D.ident.comp
      (Affine2D.translateM (profileCenterX profile frame o) (profileCenterY profile frame o))).comp
    (Affine2D.rotM (trig (rotationRadiansDivPi o)).1 (trig (rotationRadiansDivPi o)).2)

/-- The profile layer: the source-over source contributed at `(x, y)` by the
profile draw. -/
def profileSample (trig : ℚ → ℚ × ℚ) (profile frame : ImageEl) (o : CompositeOptions)
    (x y : ℚ) : Pixel :=
  sampleImage (profileCtm trig profile frame o) profile
    (-(finalProfileWidth profile frame o) / 2) (-(finalProfileHeight profile frame o) / 2)
    (finalProfileWidth profile frame o) (finalProfileHeight profile frame o) x y

/-- The frame layer: the source-over source contributed at `(x, y)` by the
frame draw (under the identity transform, after the restore). -/
def frameSample (frame : ImageEl) (o : CompositeOptions) (x y : ℚ) : Pixel :=
  sampleImage Affine2D.ident frame (frameOffsetX frame o) (frameOffsetY frame o)
    (scaledFrameWidth frame o) (scaledFrameHeight frame o) x y

/-- Compositing a source over the fully transparent pixel yields the source. -/
lemma sourceOver_transparent (s : Pixel) : sourceOver s Pixel.transparent = s := by
  simp [sourceOver, Pixel.transparent]

/-- A fully transparent source leaves the destination unchanged. -/
lemma transparent_sourceOver (d : Pixel) : sourceOver Pixel.transparent d = d := by
  simp [sourceOver, Pixel.transparent]

/-- A fully opaque source replaces the destination. -/
lemma opaque_sourceOver (s d : Pixel) (h : s.a = 1) : sourceOver s d = s := by
  cases s
  simp_all [sourceOver]

/-- Unpack a successful render: the ops are the full trace and all four
effective dimensions are nonzero. -/
lemma render_success (profile frame : ImageEl) (o : CompositeOptions) (ops : List Op)
    (h : renderCompositeToCanvas profile frame o = (ops, none)) :
    ops = renderOps profile frame o ∧
      ¬(effWidth frame = 0 ∨ effHeight frame = 0 ∨
        effWidth profile = 0 ∨ effHeight profile = 0) := by
  by_cases hc : effWidth frame = 0 ∨ effHeight frame = 0 ∨
      effWidth profile = 0 ∨ effHeight profile = 0
  · rw [renderCompositeToCanvas, if_pos hc] at h
    exact absurd (congrArg Prod.snd h) (by simp)
  · rw [renderCompositeToCanvas, if_neg hc] at h
    exact ⟨(congrArg Prod.fst h).symm, hc⟩

/-- The full effect of the successful trace on any starting canvas: the canvas
has the frame's size, the transform and the stack are back to their reset
values, and each pixel is the frame layer composited over the profile layer
over transparency. -/
lemma applyOps_renderOps (trig : ℚ → ℚ × ℚ) (st : CanvasState)
    (profile frame : ImageEl) (o : CompositeOptions) :
    applyOps trig st (renderOps profile frame o) =
      ⟨canvasWidth frame, canvasHeight frame,
       fun x y => sourceOver (frameSample frame o x y)
         (sourceOver (profileSample trig profile frame o x y) Pixel.transparent),
       Affine2D.ident, []⟩ := by
  have h : applyOps trig st (renderOps profile frame o) =
      ⟨canvasWidth frame, canvasHeight frame,
       fun x y => sourceOver (frameSample frame o x y)
         (sourceOver (profileSample trig profile frame o x y)
           (if 0 ≤ x ∧ x < 0 + canvasWidth frame ∧ 0 ≤ y ∧ y < 0 + canvasHeight frame
            then Pixel.transparent else Pixel.transparent)),
       Affine2D.ident, []⟩ := rfl
  rw [h]
  congr 1
  funext x y
  rw [ite_self]

/-- An opaque pixel (premultiplied red), used by the concrete test fixtures. -/
def solidPixel : Pixel := ⟨1, 0, 0, 1⟩

/-- The spec's concrete scenario profile image: 400×600. -/
def profileImg400x600 : ImageEl := ⟨400, 600, 400, 600, fun _ _ => solidPixel⟩

/-- The spec's concrete scenario frame image: 800×800. -/
def frameImg800x800 : ImageEl := ⟨800, 800, 800, 800, fun _ _ => solidPixel⟩

/-- A profile image whose `naturalWidth` is 0 but whose `width` property is 400. -/
def fallbackProfile : ImageEl := ⟨0, 600, 400, 600, fun _ _ => solidPixel⟩

/-- A profile image with zero effective width. -/
def zeroWidthProfile : ImageEl := ⟨0, 300, 0, 300, fun _ _ => solidPixel⟩

/-- A concrete trig oracle valid at the angles 0·π and 1·π:
`cos 0 = 1, sin 0 = 0, cos π = -1, sin π = 0`. -/
def trigStd : ℚ → ℚ × ℚ := fun k => if k = 1 then (-1, 0) else (1, 0)

/-- A fresh blank canvas. -/
def canvasStart : CanvasState := ⟨0, 0, fun _ _ => Pixel.transparent, Affine2D.ident, []⟩

/-- In the concrete scenario the base cover scale is `max(800/400, 800/600) = 2`. -/
lemma baseProfileScale_scenario : baseProfileScale profileImg400x600 frameImg800x800 = 2 := by
  have h : baseProfileScale profileImg400x600 frameImg800x800 = max (2 : ℚ) (4 / 3) := by
    rw [baseProfileScale]
    congr 1 <;>
      norm_num [canvasWidth, canvasHeight, effWidth, effHeight, profileImg400x600, frameImg800x800]
  rw [h, max_eq_left (by norm_num : (4 : ℚ) / 3 ≤ 2)]

/-- In the concrete scenario the drawn profile width is `400 · 2 · 1 = 800`. -/
lemma finalProfileWidth_scenario :
    finalProfileWidth profileImg400x600 frameImg800x800 defaultOptions = 800 := by
  rw [finalProfileWidth, baseProfileScale_scenario]
  norm_num [effWidth, profileImg400x600, defaultOptions]

/-- In the concrete scenario the drawn profile height is `600 · 2 · 1 = 1200`. -/
lemma finalProfileHeight_scenario :
    finalProfileHeight profileImg400x600 frameImg800x800 defaultOptions = 1200 := by
  rw [finalProfileHeight, baseProfileScale_scenario]
  norm_num [effHeight, profileImg400x600, defaultOptions]

/-- In the concrete scenario the horizontal centering offset is `(800-800)/2 = 0`. -/
lemma baseProfileOffsetX_scenario :
    baseProfileOffsetX profileImg400x600 frameImg800x800 defaultOptions = 0 := by
  rw [baseProfileOffsetX, finalProfileWidth_scenario]
  norm_num [canvasWidth, effWidth, frameImg800x800]

/-- In the concrete scenario the vertical centering offset is `(800-1200)/2 = -200`. -/
lemma baseProfileOffsetY_scenario :
    baseProfileOffsetY profileImg400x600 frameImg800x800 defaultOptions = -200 := by
  rw [baseProfileOffsetY, finalProfileHeight_scenario]
  norm_num [canvasHeight, effHeight, frameImg800x800]

/-- C1: for images with positive effective dimensions, the base cover scale is
`max(canvasWidth/profileWidth, canvasHeight/profileHeight)`, the profile is
drawn at size `(profileWidth·base·profileScale, profileHeight·base·profileScale)`
(uniform, aspect preserving), positioned at the centered offset
`(canvasSize - finalSize)/2` with the user pixel offsets added directly
(unscaled); in the 800×800 frame / 400×600 profile scenario with
`profileScale = 1` the base scale is 2, the drawn size is 800×1200, the
horizontal offset is 0 and the vertical offset is -200. -/
theorem c1_cover_fit_geometry (profile frame : ImageEl) (o : CompositeOptions)
    (hpw : 0 < effWidth profile) (hph : 0 < effHeight profile)
    (hfw : 0 < effWidth frame) (hfh : 0 < effHeight frame) :
    baseProfileScale profile frame =
      max (canvasWidth frame / (effWidth profile : ℚ))
          (canvasHeight frame / (effHeight profile : ℚ)) ∧
    finalProfileWidth profile frame o =
      (effWidth profile : ℚ) * baseProfileScale profile frame * o.profileScale ∧
    finalProfileHeight profile frame o =
      (effHeight profile : ℚ) * baseProfileScale profile frame * o.profileScale ∧
    finalProfileWidth profile frame o * (effHeight profile : ℚ) =
      finalProfileHeight profile frame o * (effWidth profile : ℚ) ∧
    Op.drawImage profile (-(finalProfileWidth profile frame o) / 2)
        (-(finalProfileHeight profile frame o) / 2)
        (finalProfileWidth profile frame o) (finalProfileHeight profile frame o)
      ∈ (renderCompositeToCanvas profile frame o).1 ∧
    (∀ trig : ℚ → ℚ × ℚ, trig (rotationRadiansDivPi o) = (1, 0) →
      (profileCtm trig profile frame o).apply (-(finalProfileWidth profile frame o) / 2)
          (-(finalProfileHeight profile frame o) / 2) =
        (baseProfileOffsetX profile frame o + o.profileOffsetX,
         baseProfileOffsetY profile frame o + o.profileOffsetY)) ∧
    baseProfileScale profileImg400x600 frameImg800x800 = 2 ∧
    finalProfileWidth profileImg400x600 frameImg800x800 defaultOptions = 800 ∧
    finalProfileHeight profileImg400x600 frameImg800x800 defaultOptions = 1200 ∧
    baseProfileOffsetX profileImg400x600 frameImg800x800 defaultOptions = 0 ∧
    baseProfileOffsetY profileImg400x600 frameImg800x800 defaultOptions = -200 := by
  have hne : ¬(effWidth frame = 0 ∨ effHeight frame = 0 ∨
      effWidth profile = 0 ∨ effHeight profile = 0) := by
    push_neg
    omega
  refine ⟨rfl, rfl, rfl, ?_, ?_, ?_, baseProfileScale_scenario, finalProfileWidth_scenario,
    finalProfileHeight_scenario, baseProfileOffsetX_scenario, baseProfileOffsetY_scenario⟩
  · unfold finalProfileWidth finalProfileHeight
    ring
  · unfold renderCompositeToCanvas
    rw [if_neg hne]
    simp [renderOps]
  · intro trig ht
    simp only [profileCtm, ht, Affine2D.comp, Affine2D.rotM, Affine2D.translateM,
      Affine2D.ident, Affine2D.apply, profileCenterX, profileCenterY, Prod.mk.injEq]
    constructor <;> ring

/-- Witness for C1 at the spec's concrete scenario. -/
theorem c1_cover_fit_geometry_witness :
    baseProfileScale profileImg400x600 frameImg800x800 = 2 ∧
    finalProfileWidth profileImg400x600 frameImg800x800 defaultOptions = 800 ∧
    finalProfileHeight profileImg400x600 frameImg800x800 defaultOptions = 1200 ∧
    baseProfileOffsetX profileImg400x600 frameImg800x800 defaultOptions = 0 ∧
    baseProfileOffsetY profileImg400x600 frameImg800x800 defaultOptions = -200 :=
  (c1_cover_fit_geometry profileImg400x600 frameImg800x800 defaultOptions
    (by decide) (by decide) (by decide) (by decide)).2.2.2.2.2.2

/-- C2: a successful render leaves the surface with exactly the frame's
effective width and height, for every profile image, every parameter set and
every prior canvas state. -/
theorem c2_surface_size (profile frame : ImageEl) (o : CompositeOptions) (ops : List Op)
    (h : renderCompositeToCanvas profile frame o = (ops, none))
    (trig : ℚ → ℚ × ℚ) (st : CanvasState) :
    (applyOps trig st ops).width = (effWidth frame : ℚ) ∧
    (applyOps trig st ops).height = (effHeight frame : ℚ) := by
  obtain ⟨hops, -⟩ := render_success profile frame o ops h
  subst hops
  rw [applyOps_renderOps]
  exact ⟨rfl, rfl⟩

/-- Witness for C2 at the concrete scenario images. -/
theorem c2_surface_size_witness :
    (applyOps trigStd canvasStart
        (renderCompositeToCanvas profileImg400x600 frameImg800x800 defaultOptions).1).width
      = (effWidth frameImg800x800 : ℚ) ∧
    (applyOps trigStd canvasStart
        (renderCompositeToCanvas profileImg400x600 frameImg800x800 defaultOptions).1).height
      = (effHeight frameImg800x800 : ℚ) :=
  c2_surface_size profileImg400x600 frameImg800x800 defaultOptions _ rfl trigStd canvasStart

/-- C7: the frame is drawn last, at size `(frameWidth·frameScale,
frameHeight·frameScale)`, at offset `(canvasSize - scaledFrameSize)/2` — i.e.
uniformly scaled about the canvas center — and with `frameScale = 1` it
exactly fills the canvas. -/
theorem c7_frame_scaled_about_center (profile frame : ImageEl) (o : CompositeOptions)
    (ops : List Op) (h : renderCompositeToCanvas profile frame o = (ops, none)) :
    ops.getLast? = some (Op.drawImage frame (frameOffsetX frame o) (frameOffsetY frame o)
        (scaledFrameWidth frame o) (scaledFrameHeight frame o)) ∧
    scaledFrameWidth frame o = canvasWidth frame * o.frameScale ∧
    scaledFrameHeight frame o = canvasHeight frame * o.frameScale ∧
    frameOffsetX frame o = (canvasWidth frame - scaledFrameWidth frame o) / 2 ∧
    frameOffsetY frame o = (canvasHeight frame - scaledFrameHeight frame o) / 2 ∧
    (o.frameScale = 1 →
      scaledFrameWidth frame o = canvasWidth frame ∧
      scaledFrameHeight frame o = canvasHeight frame ∧
      frameOffsetX frame o = 0 ∧ frameOffsetY frame o = 0) := by
  obtain ⟨hops, -⟩ := render_success profile frame o ops h
  subst hops
  refine ⟨rfl, rfl, rfl, rfl, rfl, ?_⟩
  intro h1
  simp [scaledFrameWidth, scaledFrameHeight, frameOffsetX, frameOffsetY, h1]

/-- Witness for C7 at the concrete scenario images with default options. -/
theorem c7_frame_scaled_about_center_witness :
    (renderCompositeToCanvas profileImg400x600 frameImg800x800 defaultOptions).1.getLast? =
      some (Op.drawImage frameImg800x800
        (frameOffsetX frameImg800x800 defaultOptions)
        (frameOffsetY frameImg800x800 defaultOptions)
        (scaledFrameWidth frameImg800x800 defaultOptions)
        (scaledFrameHeight frameImg800x800 defaultOptions)) ∧
    scaledFrameWidth frameImg800x800 defaultOptions =
      canvasWidth frameImg800x800 * defaultOptions.frameScale :=
  ⟨(c7_frame_scaled_about_center profileImg400x600 frameImg800x800 defaultOptions _ rfl).1,
   (c7_frame_scaled_about_center profileImg400x600 frameImg800x800 defaultOptions _ rfl).2.1⟩

/-- C8: a successful render trace yields the same final surface from any two
prior canvas states (the resize and clear erase all history), and re-running
the trace on its own output reproduces that output — renders are deterministic
and idempotent in the surface. -/
theorem c8_render_deterministic (profile frame : ImageEl) (o : CompositeOptions)
    (ops : List Op) (h : renderCompositeToCanvas profile frame o = (ops, none))
    (trig : ℚ → ℚ × ℚ) (st1 st2 : CanvasState) :
    applyOps trig st1 ops = applyOps trig st2 ops ∧
    applyOps trig (applyOps trig st1 ops) ops = applyOps trig st1 ops := by
  obtain ⟨hops, -⟩ := render_success profile frame o ops h
  subst hops
  constructor <;> simp only [applyOps_renderOps]

/-- Witness for C8: two different starting canvases at the concrete scenario. -/
theorem c8_render_deterministic_witness :
    applyOps trigStd canvasStart
        (renderCompositeToCanvas profileImg400x600 frameImg800x800 defaultOptions).1 =
      applyOps trigStd
        ⟨5, 7, fun _ _ => solidPixel, Affine2D.translateM 3 4, [Affine2D.ident]⟩
        (renderCompositeToCanvas profileImg400x600 frameImg800x800 defaultOptions).1 :=
  (c8_render_deterministic profileImg400x600 frameImg800x800 defaultOptions _ rfl trigStd
    canvasStart ⟨5, 7, fun _ _ => solidPixel, Affine2D.translateM 3 4, [Affine2D.ident]⟩).1

/-- C10: two renders that differ only in `frameScale` have identical profile
layer geometry — final profile size, profile center, rotation angle and the
whole transform in force at the profile draw — identical error behaviour, and
identical traces except for the final frame draw. -/
theorem c10_frameScale_noninterference (profile frame : ImageEl) (o : CompositeOptions)
    (s1 s2 : ℚ) :
    finalProfileWidth profile frame { o with frameScale := s1 } =
      finalProfileWidth profile frame { o with frameScale := s2 } ∧
    finalProfileHeight profile frame { o with frameScale := s1 } =
      finalProfileHeight profile frame { o with frameScale := s2 } ∧
    profileCenterX profile frame { o with frameScale := s1 } =
      profileCenterX profile frame { o with frameScale := s2 } ∧
    profileCenterY profile frame { o with frameScale := s1 } =
      profileCenterY profile frame { o with frameScale := s2 } ∧
    rotationRadiansDivPi { o with frameScale := s1 } =
      rotationRadiansDivPi { o with frameScale := s2 } ∧
    (∀ trig : ℚ → ℚ × ℚ, profileCtm trig profile frame { o with frameScale := s1 } =
      profileCtm trig profile frame { o with frameScale := s2 }) ∧
    (∀ trig : ℚ → ℚ × ℚ, ∀ x y : ℚ,
      profileSample trig profile frame { o with frameScale := s1 } x y =
        profileSample trig profile frame { o with frameScale := s2 } x y) ∧
    (renderCompositeToCanvas profile frame { o with frameScale := s1 }).2 =
      (renderCompositeToCanvas profile frame { o with frameScale := s2 }).2 ∧
    (renderCompositeToCanvas profile frame { o with frameScale := s1 }).1.dropLast =
      (renderCompositeToCanvas profile frame { o with frameScale := s2 }).1.dropLast := by
  refine ⟨rfl, rfl, rfl, rfl, rfl, fun trig => rfl, fun trig x y => rfl, ?_, ?_⟩
  · by_cases hc : effWidth frame = 0 ∨ effHeight frame = 0 ∨
        effWidth profile = 0 ∨ effHeight profile = 0
    · unfold renderCompositeToCanvas
      rw [if_pos hc, if_pos hc]
    · unfold renderCompositeToCanvas
      rw [if_neg hc, if_neg hc]
  · by_cases hc : effWidth frame = 0 ∨ effHeight frame = 0 ∨
        effWidth profile = 0 ∨ effHeight profile = 0
    · unfold renderCompositeToCanvas
      rw [if_pos hc, if_pos hc]
    · unfold renderCompositeToCanvas
      rw [if_neg hc, if_neg hc]
      rfl

/-- Witness for C10 at the concrete scenario with frame scales 1 and 1/2. -/
theorem c10_frameScale_noninterference_witness :
    finalProfileWidth profileImg400x600 frameImg800x800
        { defaultOptions with frameScale := 1 } =
      finalProfileWidth profileImg400x600 frameImg800x800
        { defaultOptions with frameScale := 1 / 2 } :=
  (c10_frameScale_noninterference profileImg400x600 frameImg800x800 defaultOptions
    1 (1 / 2)).1

/-- The final pixel of a successful render: the frame layer composited
source-over the profile layer (the canvas below them was just cleared). -/
lemma render_pix (trig : ℚ → ℚ × ℚ) (st : CanvasState) (profile frame : ImageEl)
    (o : CompositeOptions) (x y : ℚ) :
    (applyOps trig st (renderOps profile frame o)).pix x y =
      sourceOver (frameSample frame o x y) (profileSample trig profile frame o x y) := by
  rw [applyOps_renderOps]
  show sourceOver (frameSample frame o x y)
      (sourceOver (profileSample trig profile frame o x y) Pixel.transparent) = _
  rw [sourceOver_transparent]

/-- C3: a successful render performs exactly, and in this order: resize, clear
the whole canvas, draw the transformed profile photo (bracketed by
save/translate/rotate/restore), draw the frame on top; consequently, wherever
the frame layer is fully transparent the final pixel equals the profile
layer's pixel, and wherever it is fully opaque the final pixel equals the
frame layer's pixel. -/
theorem c3_draw_order_pixels (profile frame : ImageEl) (o : CompositeOptions) (ops : List Op)
    (h : renderCompositeToCanvas profile frame o = (ops, none)) :
    ops = [Op.setSize (canvasWidth frame) (canvasHeight frame),
           Op.clearRect 0 0 (canvasWidth frame) (canvasHeight frame),
           Op.save,
           Op.translate (profileCenterX profile frame o) (profileCenterY profile frame o),
           Op.rotate (rotationRadiansDivPi o),
           Op.drawImage profile (-(finalProfileWidth profile frame o) / 2)
             (-(finalProfileHeight profile frame o) / 2)
             (finalProfileWidth profile frame o) (finalProfileHeight profile frame o),
           Op.restore,
           Op.drawImage frame (frameOffsetX frame o) (frameOffsetY frame o)
             (scaledFrameWidth frame o) (scaledFrameHeight frame o)] ∧
    (∀ (trig : ℚ → ℚ × ℚ) (st : CanvasState) (x y : ℚ),
      (applyOps trig st ops).pix x y =
        sourceOver (frameSample frame o x y) (profileSample trig profile frame o x y) ∧
      (frameSample frame o x y = Pixel.transparent →
        (applyOps trig st ops).pix x y = profileSample trig profile frame o x y) ∧
      ((frameSample frame o x y).a = 1 →
        (applyOps trig st ops).pix x y = frameSample frame o x y)) := by
  obtain ⟨hops, -⟩ := render_success profile frame o ops h
  subst hops
  refine ⟨rfl, ?_⟩
  intro trig st x y
  have hp := render_pix trig st profile frame o x y
  refine ⟨hp, ?_, ?_⟩
  · intro ht
    rw [hp, ht, transparent_sourceOver]
  · intro ha
    rw [hp, opaque_sourceOver _ _ ha]

/-- Witness for C3 at the concrete scenario: the exact trace, and the pixel
equation at the canvas center. -/
theorem c3_draw_order_pixels_witness :
    (renderCompositeToCanvas profileImg400x600 frameImg800x800 defaultOptions).1 =
      [Op.setSize (canvasWidth frameImg800x800) (canvasHeight frameImg800x800),
       Op.clearRect 0 0 (canvasWidth frameImg800x800) (canvasHeight frameImg800x800),
       Op.save,
       Op.translate (profileCenterX profileImg400x600 frameImg800x800 defaultOptions)
         (profileCenterY profileImg400x600 frameImg800x800 defaultOptions),
       Op.rotate (rotationRadiansDivPi defaultOptions),
       Op.drawImage profileImg400x600
         (-(finalProfileWidth profileImg400x600 frameImg800x800 defaultOptions) / 2)
         (-(finalProfileHeight profileImg400x600 frameImg800x800 defaultOptions) / 2)
         (finalProfileWidth profileImg400x600 frameImg800x800 defaultOptions)
         (finalProfileHeight profileImg400x600 frameImg800x800 defaultOptions),
       Op.restore,
       Op.drawImage frameImg800x800 (frameOffsetX frameImg800x800 defaultOptions)
         (frameOffsetY frameImg800x800 defaultOptions)
         (scaledFrameWidth frameImg800x800 defaultOptions)
         (scaledFrameHeight frameImg800x800 defaultOptions)] ∧
    (applyOps trigStd canvasStart
        (renderCompositeToCanvas profileImg400x600 frameImg800x800 defaultOptions).1).pix 400 400 =
      sourceOver (frameSample frameImg800x800 defaultOptions 400 400)
        (profileSample trigStd profileImg400x600 frameImg800x800 defaultOptions 400 400) :=
  ⟨(c3_draw_order_pixels profileImg400x600 frameImg800x800 defaultOptions _ rfl).1,
   ((c3_draw_order_pixels profileImg400x600 frameImg800x800 defaultOptions _ rfl).2
     trigStd canvasStart 400 400).1⟩

/-- C4: the rotation angle is `profileRotation`·π/180 radians (degrees to
radians); it is applied by translating to the offset-adjusted profile center,
rotating, drawing the profile offset by minus half its final size, and
restoring before the frame draw — so the transform at the profile draw maps
the drawn rectangle's center to the profile center point for every rotation,
the transform at the frame draw is the identity, and with zero offsets the
profile center for a 180° rotation equals the one for 0°. -/
theorem c4_rotation_about_center (profile frame : ImageEl) (o : CompositeOptions) (ops : List Op)
    (h : renderCompositeToCanvas profile frame o = (ops, none)) :
    rotationRadiansDivPi o = o.profileRotation / 180 ∧
    Op.rotate (rotationRadiansDivPi o) ∈ ops ∧
    (∀ (trig : ℚ → ℚ × ℚ) (st : CanvasState),
      (applyOps trig st (ops.take 5)).ctm = profileCtm trig profile frame o ∧
      (profileCtm trig profile frame o).apply 0 0 =
        (profileCenterX profile frame o, profileCenterY profile frame o) ∧
      (applyOps trig st (ops.take 7)).ctm = Affine2D.ident ∧
      (applyOps trig st (ops.take 7)).stack = []) ∧
    ops.get? 5 = some (Op.drawImage profile (-(finalProfileWidth profile frame o) / 2)
        (-(finalProfileHeight profile frame o) / 2)
        (finalProfileWidth profile frame o) (finalProfileHeight profile frame o)) ∧
    ops.get? 6 = some Op.restore ∧
    ops.get? 7 = some (Op.drawImage frame (frameOffsetX frame o) (frameOffsetY frame o)
        (scaledFrameWidth frame o) (scaledFrameHeight frame o)) ∧
    (∀ trig : ℚ → ℚ × ℚ,
      (profileCtm trig profile frame
          { o with profileRotation := 180, profileOffsetX := 0, profileOffsetY := 0 }).apply 0 0 =
      (profileCtm trig profile frame
          { o with profileRotation := 0, profileOffsetX := 0, profileOffsetY := 0 }).apply 0 0) := by
  obtain ⟨hops, -⟩ := render_success profile frame o ops h
  subst hops
  refine ⟨rfl, ?_, ?_, rfl, rfl, rfl, ?_⟩
  · simp [renderOps]
  · intro trig st
    refine ⟨rfl, ?_, rfl, rfl⟩
    simp only [profileCtm, Affine2D.comp, Affine2D.apply, Affine2D.translateM, Affine2D.rotM,
      Affine2D.ident, Prod.mk.injEq]
    constructor <;> ring
  · intro trig
    simp only [profileCtm, Affine2D.comp, Affine2D.apply, Affine2D.translateM, Affine2D.rotM,
      Affine2D.ident, profileCenterX, profileCenterY, baseProfileOffsetX, baseProfileOffsetY,
      finalProfileWidth, finalProfileHeight, Prod.mk.injEq]
    constructor <;> ring

/-- Witness for C4 at the concrete scenario. -/
theorem c4_rotation_about_center_witness :
    Op.rotate (rotationRadiansDivPi defaultOptions) ∈
      (renderCompositeToCanvas profileImg400x600 frameImg800x800 defaultOptions).1 ∧
    (applyOps trigStd canvasStart
        ((renderCompositeToCanvas profileImg400x600 frameImg800x800 defaultOptions).1.take 7)).ctm =
      Affine2D.ident :=
  ⟨(c4_rotation_about_center profileImg400x600 frameImg800x800 defaultOptions _ rfl).2.1,
   ((c4_rotation_about_center profileImg400x600 frameImg800x800 defaultOptions _ rfl).2.2.1
     trigStd canvasStart).2.2.1⟩

/-- C5: the render throws `'Invalid image dimensions'` exactly when some
effective dimension is zero, and in that case it has performed no mutation:
the trace is empty and the surface is left exactly as it was. -/
theorem c5_invalid_dims_guard (profile frame : ImageEl) (o : CompositeOptions) :
    ((renderCompositeToCanvas profile frame o).2 = some "Invalid image dimensions" ↔
      (effWidth frame = 0 ∨ effHeight frame = 0 ∨
       effWidth profile = 0 ∨ effHeight profile = 0)) ∧
    ((renderCompositeToCanvas profile frame o).2.isSome →
      (renderCompositeToCanvas profile frame o).1 = [] ∧
      ∀ (trig : ℚ → ℚ × ℚ) (st : CanvasState),
        applyOps trig st (renderCompositeToCanvas profile frame o).1 = st) := by
  by_cases hc : effWidth frame = 0 ∨ effHeight frame = 0 ∨
      effWidth profile = 0 ∨ effHeight profile = 0
  · unfold renderCompositeToCanvas
    rw [if_pos hc]
    exact ⟨⟨fun _ => hc, fun _ => rfl⟩, fun _ => ⟨rfl, fun trig st => rfl⟩⟩
  · unfold renderCompositeToCanvas
    rw [if_neg hc]
    exact ⟨⟨fun hx => absurd hx (by simp), fun hx => absurd hx hc⟩, fun hx => absurd hx (by simp)⟩

/-- Witness for C5: a zero-effective-width profile makes the render throw. -/
theorem c5_invalid_dims_guard_witness :
    (renderCompositeToCanvas zeroWidthProfile frameImg800x800 defaultOptions).2 =
      some "Invalid image dimensions" :=
  (c5_invalid_dims_guard zeroWidthProfile frameImg800x800 defaultOptions).1.2 (by decide)

/-- C9: the effective dimension is `naturalWidth` with fallback to `width`
when the natural dimension is zero; an image with `naturalWidth = 0` but
positive `width` does not trip the dimension guard, and its geometry is
computed from the fallback dimension. -/
theorem c9_dimension_fallback (profile frame : ImageEl) (o : CompositeOptions)
    (hnat : profile.naturalWidth = 0) (hw : 0 < profile.width)
    (hph : 0 < effHeight profile) (hfw : 0 < effWidth frame) (hfh : 0 < effHeight frame) :
    effWidth profile = profile.width ∧
    (renderCompositeToCanvas profile frame o).2 = none ∧
    baseProfileScale profile frame =
      max (canvasWidth frame / (profile.width : ℚ))
          (canvasHeight frame / (effHeight profile : ℚ)) := by
  have he : effWidth profile = profile.width := by simp [effWidth, hnat]
  have hne : ¬(effWidth frame = 0 ∨ effHeight frame = 0 ∨
      effWidth profile = 0 ∨ effHeight profile = 0) := by omega
  refine ⟨he, ?_, ?_⟩
  · unfold renderCompositeToCanvas
    rw [if_neg hne]
  · rw [baseProfileScale, he]

/-- Witness for C9: `naturalWidth = 0`, `width = 400` profile renders fine. -/
theorem c9_dimension_fallback_witness :
    effWidth fallbackProfile = fallbackProfile.width ∧
    (renderCompositeToCanvas fallbackProfile frameImg800x800 defaultOptions).2 = none ∧
    baseProfileScale fallbackProfile frameImg800x800 =
      max (canvasWidth frameImg800x800 / (fallbackProfile.width : ℚ))
          (canvasHeight frameImg800x800 / (effHeight fallbackProfile : ℚ)) :=
  c9_dimension_fallback fallbackProfile frameImg800x800 defaultOptions rfl
    (by decide) (by decide) (by decide) (by decide)

/-- An event delivered to one of the four image callbacks of `mergeImages`. -/
inductive MEvent where
  | profileLoad
  | frameLoad
  | profileError
  | frameError
deriving DecidableEq, Repr

/-- The environment of one `mergeImages` call: whether `getContext('2d')`
succeeds, the decoded image elements the two object URLs produce, the options,
whether `canvas.toBlob` produces a blob, and the order in which the
load/error callbacks fire (either image may complete first). -/
structure MergeEnv where
  ctxOk : Bool
  profileImg : ImageEl
  frameImg : ImageEl
  options : CompositeOptions
  blobOk : Bool
  events : List MEvent

/-- The observable state of one `mergeImages` call: whether the two object
URLs were created, the loaded flags, the promise settlement (`none` while
pending; the first resolve/reject wins), and whether each URL was revoked. -/
structure MergeState where
  urlsCreated : Bool
  profileLoaded : Bool
  frameLoaded : Bool
  settled : Option (Except String Unit)
  revokedProfile : Bool
  revokedFrame : Bool

/-- Settle the promise: the first resolve/reject wins, later ones are no-ops
(JS promise semantics). -/
def settle (st : MergeState) (r : Except String Unit) : MergeState :=
  match st.settled with
  | some _ => st
  | none => { st with settled := some r }

/-- `URL.revokeObjectURL` applied to both temporary URLs. -/
def revokeBoth (st : MergeState) : MergeState :=
  { st with revokedProfile := true, revokedFrame := true }

/-- The `tryMerge` closure: a join — do nothing until both images are loaded;
then render (on a throw, revoke both URLs and reject with the thrown error),
then encode, revoking both URLs and resolving on success or rejecting
`'Failed to create blob'` on a null blob. -/
def tryMerge (env : MergeEnv) (st : MergeState) : MergeState :=
  if st.profileLoaded ∧ st.frameLoaded then
    match (renderCompositeToCanvas env.profileImg env.frameImg env.options).2 with
    | some e => settle (revokeBoth st) (Except.error e)
    | none =>
        if env.blobOk then settle (revokeBoth st) (Except.ok ())
        else settle (revokeBoth st) (Except.error "Failed to create blob")
  else st

/-- Handle one callback event (the `onload`/`onerror` handlers of the source):
a load marks its flag and runs `tryMerge`; an error revokes both URLs and
rejects with the decode failure message. -/
def mergeStep (env : MergeEnv) (st : MergeState) : MEvent → MergeState
  | MEvent.profileLoad => tryMerge env { st with profileLoaded := true }
  | MEvent.frameLoad => tryMerge env { st with frameLoaded := true }
  | MEvent.profileError => settle (revokeBoth st) (Except.error "Failed to load profile image")
  | MEvent.frameError => settle (revokeBoth st) (Except.error "Failed to load frame image")

/-- The state right after both object URLs are created. -/
def mergeInit : MergeState := ⟨true, false, false, none, false, false⟩

/-- `mergeImages`: reject immediately if no 2D context is available (this
happens before any object URL is created); otherwise create both URLs and run
the callbacks as they fire. -/
def mergeImages (env : MergeEnv) : MergeState :=
  if env.ctxOk then env.events.foldl (mergeStep env) mergeInit
  else ⟨false, false, false, some (Except.error "Could not get canvas context"), false, false⟩

/-- `revokeBoth` does not touch the settlement. -/
lemma revokeBoth_settled (st : MergeState) : (revokeBoth st).settled = st.settled := rfl

/-- An already settled promise keeps its value through `settle`. -/
lemma settle_settled_of_some (st : MergeState) (r r0 : Except String Unit)
    (h : st.settled = some r0) : (settle st r).settled = some r0 := by
  unfold settle
  rw [h]
  exact h

/-- Settling a pending promise records the value. -/
lemma settle_settled_of_none (st : MergeState) (r : Except String Unit)
    (h : st.settled = none) : (settle st r).settled = some r := by
  unfold settle
  rw [h]

/-- `settle` preserves the `profileLoaded` flag. -/
lemma settle_profileLoaded (st : MergeState) (r : Except String Unit) :
    (settle st r).profileLoaded = st.profileLoaded := by
  unfold settle
  cases h : st.settled <;> rfl

/-- `settle` preserves the `frameLoaded` flag. -/
lemma settle_frameLoaded (st : MergeState) (r : Except String Unit) :
    (settle st r).frameLoaded = st.frameLoaded := by
  unfold settle
  cases h : st.settled <;> rfl

/-- `settle` preserves the revocation flags. -/
lemma settle_revokedProfile (st : MergeState) (r : Except String Unit) :
    (settle st r).revokedProfile = st.revokedProfile := by
  unfold settle
  cases h : st.settled <;> rfl

/-- `settle` preserves the revocation flags. -/
lemma settle_revokedFrame (st : MergeState) (r : Except String Unit) :
    (settle st r).revokedFrame = st.revokedFrame := by
  unfold settle
  cases h : st.settled <;> rfl

/-- `tryMerge` keeps an already settled value. -/
lemma tryMerge_settled_of_some (env : MergeEnv) (st : MergeState) (r : Except String Unit)
    (h : st.settled = some r) : (tryMerge env st).settled = some r := by
  unfold tryMerge
  split
  · split
    · exact settle_settled_of_some _ _ _ ((revokeBoth_settled st).trans h)
    · split
      · exact settle_settled_of_some _ _ _ ((revokeBoth_settled st).trans h)
      · exact settle_settled_of_some _ _ _ ((revokeBoth_settled st).trans h)
  · exact h

/-- One event keeps an already settled value. -/
lemma mergeStep_settled_of_some (env : MergeEnv) (e : MEvent) (st : MergeState)
    (r : Except String Unit) (h : st.settled = some r) :
    (mergeStep env st e).settled = some r := by
  cases e
  · exact tryMerge_settled_of_some env _ r h
  · exact tryMerge_settled_of_some env _ r h
  · exact settle_settled_of_some _ _ _ ((revokeBoth_settled st).trans h)
  · exact settle_settled_of_some _ _ _ ((revokeBoth_settled st).trans h)

/-- A whole event list keeps an already settled value. -/
lemma foldl_settled_of_some (env : MergeEnv) (l : List MEvent) (st : MergeState)
    (r : Except String Unit) (h : st.settled = some r) :
    (l.foldl (mergeStep env) st).settled = some r := by
  induction l generalizing st with
  | nil => exact h
  | cons e t ih => exact ih _ (mergeStep_settled_of_some env e st r h)

/-- Invariant: any settled state has revoked both object URLs. -/
def RevokeInv (st : MergeState) : Prop :=
  st.settled.isSome = true → st.revokedProfile = true ∧ st.revokedFrame = true

/-- `tryMerge` preserves the revocation invariant: every settling branch
revokes both URLs first. -/
lemma tryMerge_revokeInv (env : MergeEnv) (st : MergeState) (h : RevokeInv st) :
    RevokeInv (tryMerge env st) := by
  unfold tryMerge
  split
  · split
    · exact fun _ => ⟨(settle_revokedProfile _ _).trans rfl, (settle_revokedFrame _ _).trans rfl⟩
    · split
      · exact fun _ => ⟨(settle_revokedProfile _ _).trans rfl, (settle_revokedFrame _ _).trans rfl⟩
      · exact fun _ => ⟨(settle_revokedProfile _ _).trans rfl, (settle_revokedFrame _ _).trans rfl⟩
  · exact h

/-- One event preserves the revocation invariant. -/
lemma mergeStep_revokeInv (env : MergeEnv) (e : MEvent) (st : MergeState)
    (h : RevokeInv st) : RevokeInv (mergeStep env st e) := by
  cases e
  · exact tryMerge_revokeInv env _ h
  · exact tryMerge_revokeInv env _ h
  · exact fun _ => ⟨(settle_revokedProfile _ _).trans rfl, (settle_revokedFrame _ _).trans rfl⟩
  · exact fun _ => ⟨(settle_revokedProfile _ _).trans rfl, (settle_revokedFrame _ _).trans rfl⟩

/-- A whole event list preserves the revocation invariant. -/
lemma foldl_revokeInv (env : MergeEnv) (l : List MEvent) (st : MergeState)
    (h : RevokeInv st) : RevokeInv (l.foldl (mergeStep env) st) := by
  induction l generalizing st with
  | nil => exact h
  | cons e t ih => exact ih _ (mergeStep_revokeInv env e st h)

/-- The initial state satisfies the revocation invariant vacuously. -/
lemma revokeInv_mergeInit : RevokeInv mergeInit := by
  intro h
  simp [mergeInit] at h

/-- Invariant while the profile never loads: the loaded flag stays false and
the only possible settlements are decode-failure rejections. -/
def ProfilePendingGood (st : MergeState) : Prop :=
  st.profileLoaded = false ∧
  (st.settled = none ∨ ∃ m, st.settled = some (Except.error m) ∧
    (m = "Failed to load profile image" ∨ m = "Failed to load frame image"))

/-- Any event other than the profile load preserves `ProfilePendingGood`. -/
lemma mergeStep_profilePendingGood (env : MergeEnv) (e : MEvent) (st : MergeState)
    (hne : e ≠ MEvent.profileLoad) (h : ProfilePendingGood st) :
    ProfilePendingGood (mergeStep env st e) := by
  obtain ⟨hl, hs⟩ := h
  cases e with
  | profileLoad => exact absurd rfl hne
  | frameLoad =>
      have hcond : ¬(({ st with frameLoaded := true } : MergeState).profileLoaded ∧
          ({ st with frameLoaded := true } : MergeState).frameLoaded) := by
        simp [hl]
      unfold mergeStep tryMerge
      rw [if_neg hcond]
      exact ⟨hl, hs⟩
  | profileError =>
      refine ⟨(settle_profileLoaded _ _).trans hl, ?_⟩
      rcases hs with hnone | ⟨m, hm, hmm⟩
      · exact Or.inr ⟨_, settle_settled_of_none _ _ ((revokeBoth_settled st).trans hnone),
          Or.inl rfl⟩
      · exact Or.inr ⟨m, settle_settled_of_some _ _ _ ((revokeBoth_settled st).trans hm), hmm⟩
  | frameError =>
      refine ⟨(settle_profileLoaded _ _).trans hl, ?_⟩
      rcases hs with hnone | ⟨m, hm, hmm⟩
      · exact Or.inr ⟨_, settle_settled_of_none _ _ ((revokeBoth_settled st).trans hnone),
          Or.inr rfl⟩
      · exact Or.inr ⟨m, settle_settled_of_some _ _ _ ((revokeBoth_settled st).trans hm), hmm⟩

/-- If the profile errors and never loads, the run ends rejected with one of
the two decode-failure messages. -/
lemma decode_profile_rejects (env : MergeEnv) (l : List MEvent) (st : MergeState)
    (hgood : ProfilePendingGood st) (hnl : MEvent.profileLoad ∉ l)
    (hin : MEvent.profileError ∈ l) :
    ∃ m, (l.foldl (mergeStep env) st).settled = some (Except.error m) ∧
      (m = "Failed to load profile image" ∨ m = "Failed to load frame image") := by
  induction l generalizing st with
  | nil => exact absurd hin (List.not_mem_nil _)
  | cons e t ih =>
    have hne : e ≠ MEvent.profileLoad := by
      intro h
      exact hnl (by rw [← h]; exact List.mem_cons_self e t)
    have hnlt : MEvent.profileLoad ∉ t := fun h => hnl (List.mem_cons_of_mem e h)
    by_cases he : e = MEvent.profileError
    · subst he
      have hstep : ∃ m, (mergeStep env st MEvent.profileError).settled =
          some (Except.error m) ∧
          (m = "Failed to load profile image" ∨ m = "Failed to load frame image") := by
        obtain ⟨hl, hs⟩ := hgood
        rcases hs with hnone | ⟨m, hm, hmm⟩
        · exact ⟨_, settle_settled_of_none _ _ ((revokeBoth_settled st).trans hnone), Or.inl rfl⟩
        · exact ⟨m, settle_settled_of_some _ _ _ ((revokeBoth_settled st).trans hm), hmm⟩
      obtain ⟨m, hm, hmm⟩ := hstep
      exact ⟨m, foldl_settled_of_some env t _ _ hm, hmm⟩
    · have hint : MEvent.profileError ∈ t := by
        rcases List.mem_cons.mp hin with h1 | h1
        · exact absurd h1.symm he
        · exact h1
      exact ih _ (mergeStep_profilePendingGood env e st hne hgood) hnlt hint

/-- Invariant while the frame never loads: mirror of `ProfilePendingGood`. -/
def FramePendingGood (st : MergeState) : Prop :=
  st.frameLoaded = false ∧
  (st.settled = none ∨ ∃ m, st.settled = some (Except.error m) ∧
    (m = "Failed to load profile image" ∨ m = "Failed to load frame image"))

/-- Any event other than the frame load preserves `FramePendingGood`. -/
lemma mergeStep_framePendingGood (env : MergeEnv) (e : MEvent) (st : MergeState)
    (hne : e ≠ MEvent.frameLoad) (h : FramePendingGood st) :
    FramePendingGood (mergeStep env st e) := by
  obtain ⟨hl, hs⟩ := h
  cases e with
  | frameLoad => exact absurd rfl hne
  | profileLoad =>
      have hcond : ¬(({ st with profileLoaded := true } : MergeState).profileLoaded ∧
          ({ st with profileLoaded := true } : MergeState).frameLoaded) := by
        simp [hl]
      unfold mergeStep tryMerge
      rw [if_neg hcond]
      exact ⟨hl, hs⟩
  | profileError =>
      refine ⟨(settle_frameLoaded _ _).trans hl, ?_⟩
      rcases hs with hnone | ⟨m, hm, hmm⟩
      · exact Or.inr ⟨_, settle_settled_of_none _ _ ((revokeBoth_settled st).trans hnone),
          Or.inl rfl⟩
      · exact Or.inr ⟨m, settle_settled_of_some _ _ _ ((revokeBoth_settled st).trans hm), hmm⟩
  | frameError =>
      refine ⟨(settle_frameLoaded _ _).trans hl, ?_⟩
      rcases hs with hnone | ⟨m, hm, hmm⟩
      · exact Or.inr ⟨_, settle_settled_of_none _ _ ((revokeBoth_settled st).trans hnone),
          Or.inr rfl⟩
      · exact Or.inr ⟨m, settle_settled_of_some _ _ _ ((revokeBoth_settled st).trans hm), hmm⟩

/-- If the frame errors and never loads, the run ends rejected with one of
the two decode-failure messages. -/
lemma decode_frame_rejects (env : MergeEnv) (l : List MEvent) (st : MergeState)
    (hgood : FramePendingGood st) (hnl : MEvent.frameLoad ∉ l)
    (hin : MEvent.frameError ∈ l) :
    ∃ m, (l.foldl (mergeStep env) st).settled = some (Except.error m) ∧
      (m = "Failed to load profile image" ∨ m = "Failed to load frame image") := by
  induction l generalizing st with
  | nil => exact absurd hin (List.not_mem_nil _)
  | cons e t ih =>
    have hne : e ≠ MEvent.frameLoad := by
      intro h
      exact hnl (by rw [← h]; exact List.mem_cons_self e t)
    have hnlt : MEvent.frameLoad ∉ t := fun h => hnl (List.mem_cons_of_mem e h)
    by_cases he : e = MEvent.frameError
    · subst he
      have hstep : ∃ m, (mergeStep env st MEvent.frameError).settled =
          some (Except.error m) ∧
          (m = "Failed to load profile image" ∨ m = "Failed to load frame image") := by
        obtain ⟨hl, hs⟩ := hgood
        rcases hs with hnone | ⟨m, hm, hmm⟩
        · exact ⟨_, settle_settled_of_none _ _ ((revokeBoth_settled st).trans hnone), Or.inr rfl⟩
        · exact ⟨m, settle_settled_of_some _ _ _ ((revokeBoth_settled st).trans hm), hmm⟩
      obtain ⟨m, hm, hmm⟩ := hstep
      exact ⟨m, foldl_settled_of_some env t _ _ hm, hmm⟩
    · have hint : MEvent.frameError ∈ t := by
        rcases List.mem_cons.mp hin with h1 | h1
        · exact absurd h1.symm he
        · exact h1
      exact ih _ (mergeStep_framePendingGood env e st hne hgood) hnlt hint

/-- C6: with a usable 2D context, `mergeImages` rejects with a decode-failure
message whenever either source errors instead of loading; when both sources
load it propagates the compositor's `'Invalid image dimensions'` rejection;
and on every settled path — success, decode failure, render failure, or
encode failure — it has revoked both temporary object URLs. -/
theorem c6_merge_cleanup (env : MergeEnv) (hctx : env.ctxOk = true) :
    ((MEvent.profileError ∈ env.events ∧ MEvent.profileLoad ∉ env.events) ∨
      (MEvent.frameError ∈ env.events ∧ MEvent.frameLoad ∉ env.events) →
      ∃ m, (mergeImages env).settled = some (Except.error m) ∧
        (m = "Failed to load profile image" ∨ m = "Failed to load frame image")) ∧
    (env.events = [MEvent.profileLoad, MEvent.frameLoad] ∨
      env.events = [MEvent.frameLoad, MEvent.profileLoad] →
      (renderCompositeToCanvas env.profileImg env.frameImg env.options).2 =
        some "Invalid image dimensions" →
      (mergeImages env).settled = some (Except.error "Invalid image dimensions")) ∧
    ((mergeImages env).settled.isSome = true →
      (mergeImages env).revokedProfile = true ∧ (mergeImages env).revokedFrame = true) := by
  have hmi : mergeImages env = env.events.foldl (mergeStep env) mergeInit := by
    unfold mergeImages
    rw [if_pos hctx]
  refine ⟨?_, ?_, ?_⟩
  · intro hd
    rw [hmi]
    rcases hd with ⟨hin, hnl⟩ | ⟨hin, hnl⟩
    · exact decode_profile_rejects env env.events mergeInit ⟨rfl, Or.inl rfl⟩ hnl hin
    · exact decode_frame_rejects env env.events mergeInit ⟨rfl, Or.inl rfl⟩ hnl hin
  · intro hev hr
    rw [hmi]
    rcases hev with hev | hev <;> rw [hev] <;>
      simp [List.foldl, mergeStep, tryMerge, mergeInit, settle, revokeBoth, hr]
  · intro hs
    rw [hmi] at hs ⊢
    exact foldl_revokeInv env env.events mergeInit revokeInv_mergeInit hs

/-- A concrete successful-run environment for the C6 witness. -/
def envWitness : MergeEnv :=
  ⟨true, profileImg400x600, frameImg800x800, defaultOptions, true,
   [MEvent.profileLoad, MEvent.frameLoad]⟩

/-- Witness for C6: the successful run settles and has revoked both URLs. -/
theorem c6_merge_cleanup_witness :
    (mergeImages envWitness).revokedProfile = true ∧
    (mergeImages envWitness).revokedFrame = true :=
  (c6_merge_cleanup envWitness rfl).2.2 rfl
